import Mathlib

/-!
Verification of the Marshall Stanmore II BLE/MQTT bridge
(`marshallstanmore2`), a shallow embedding of the protocol codec,
notification reassembler, callback registries, device facade and MQTT
command router found in `marshallstanmore2/ble.py`,
`marshallstanmore2/mqtt.py` and `marshallstanmore2/typings.py`.

Bytes are modelled as `Nat` (a transport byte is in `[0, 255]`); byte
buffers are `List Nat`; decoded text is kept as its raw byte list
(UTF-8 decoding of valid ASCII is the identity on the bytes the
theorems touch).  Python exceptions are modelled with `Except`.
-/

/-! ## Media-info reassembler and field extraction (ble.py lines 53-205) -/

/-- Errors raised along the media-info extraction path of
`MarshallStanmore2._handle_media_info`: `valueError` models the
`ValueError` raised by `bytes.index` when the pattern is absent,
`indexError` models the `IndexError` raised by `data[data_length_pos]`
when the length byte lies past the end of the buffer. -/
inductive MediaErr
  | valueError
  | indexError
deriving DecidableEq, Repr

/-- `MediaInfo` (typings.py line 86): title, artist and album, each an
optional text, here kept as the raw UTF-8 byte list. -/
structure MediaInfo where
  title : Option (List Nat)
  artist : Option (List Nat)
  album : Option (List Nat)
deriving DecidableEq, Repr

/-- Lowest index at which `pat` occurs as a contiguous sublist of the
data, scanning from the front — the search performed by Python's
`bytes.index`, except that absence is reported as `none` here and lifted
to the raised `ValueError` in `pyIndex`. -/
def bytesIndex (pat : List Nat) : List Nat → Option Nat
  | [] => if pat.length = 0 then some 0 else none
  | d :: rest =>
    if pat = (d :: rest).take pat.length then some 0
    else (bytesIndex pat rest).map (· + 1)

/-- Python's `data.index(pat)` on bytes: the lowest match position, or a
raised `ValueError` when `pat` does not occur.  The result is an `Int`
because the (dead) `== -1` comparisons in `_handle_media_info` compare
it against `-1`. -/
def pyIndex (data pat : List Nat) : Except MediaErr Int :=
  match bytesIndex pat data with
  | some n => Except.ok (n : Int)
  | none => Except.error MediaErr.valueError

/-- `MarshallStanmore2._decode_index` (ble.py lines 154-159): the byte at
`offset + 7` is the field length `L`; the text is the `L` bytes starting
at `offset + 8` (Python slicing truncates silently, never raises).
Reading the length byte itself raises `IndexError` when out of range. -/
def decodeIndex (data : List Nat) (offset : Nat) : Except MediaErr (List Nat) :=
  let dataLengthPos := offset + 7
  match data[dataLengthPos]? with
  | some dataLength => Except.ok ((data.drop (dataLengthPos + 1)).take dataLength)
  | none => Except.error MediaErr.indexError

/-- Field marker for the title field (`00 00 00 01 00 6A 00`). -/
def titleMarker : List Nat := [0x00, 0x00, 0x00, 0x01, 0x00, 0x6A, 0x00]

/-- Field marker for the artist field (`00 00 00 02 00 6A 00`). -/
def artistMarker : List Nat := [0x00, 0x00, 0x00, 0x02, 0x00, 0x6A, 0x00]

/-- Field marker for the album field (`00 00 00 03 00 6A 00`). -/
def albumMarker : List Nat := [0x00, 0x00, 0x00, 0x03, 0x00, 0x6A, 0x00]

/-- Terminating sentinel of a complete media-info message
(`_media_info_ending_bytes`, ble.py lines 53-55). -/
def endingBytes : List Nat := [0x00, 0x00, 0x00, 0xFF, 0x00, 0x00, 0x00, 0x00]

/-- One field-extraction block of `_handle_media_info` (ble.py lines
167-189): `data.index(marker)` — which raises `ValueError` on absence —
followed by the comparison of the returned position with `-1` (dead
code, kept faithful to the source: `bytes.index` never returns `-1`)
and the `_decode_index` call. -/
def extractField (data marker : List Nat) : Except MediaErr (Option (List Nat)) := do
  let startPos ← pyIndex data marker
  if startPos == -1 then
    pure none
  else
    let text ← decodeIndex data startPos.toNat
    pure (some text)

/-- Field extraction of `_handle_media_info` (ble.py lines 161-195):
title, artist and album blocks run in order inside one `try:`, so the
first raising block aborts the rest and no `MediaInfo` is built. -/
def handleExtract (data : List Nat) : Except MediaErr MediaInfo := do
  let title ← extractField data titleMarker
  let artist ← extractField data artistMarker
  let album ← extractField data albumMarker
  pure { title := title, artist := artist, album := album }

/-- `_handle_media_info` at the state level: extraction runs on the
buffer contents; on success the `MediaInfo` is dispatched to the
media-info callbacks, on error nothing is dispatched and the error
propagates — and in both cases the `finally:` block (ble.py lines
196-197) replaces the buffer with a fresh empty one.  Result: the new
buffer contents and the dispatched `MediaInfo`s. -/
def handleMediaInfoRun (buf : List Nat) : List Nat × List MediaInfo :=
  match handleExtract buf with
  | Except.ok mi => ([], [mi])
  | Except.error _ => ([], [])

/-- Python's `data[-8:]` truncated-tail slice: the last `n` bytes when
the list is at least `n` long, the whole list otherwise. -/
def lastSlice (n : Nat) (l : List Nat) : List Nat :=
  l.drop (l.length - n)

/-- `MarshallStanmore2._on_media_info` (ble.py lines 199-205): append the
chunk to the buffer, then run `_handle_media_info` iff the CHUNK's
`data[-8:]` equals the sentinel.  Result: (new buffer contents,
dispatched `MediaInfo`s) and whether `_handle_media_info` ran. -/
def feedChunk (buf chunk : List Nat) : (List Nat × List MediaInfo) × Bool :=
  let buf2 := buf ++ chunk
  if lastSlice 8 chunk = endingBytes then (handleMediaInfoRun buf2, true)
  else ((buf2, []), false)

/-- Feed a sequence of notification chunks through `_on_media_info`,
collecting every dispatched `MediaInfo`. -/
def feedChunks (buf : List Nat) (chunks : List (List Nat)) : List Nat × List MediaInfo :=
  chunks.foldl
    (fun acc chunk =>
      let r := feedChunk acc.1 chunk
      (r.1.1, acc.2 ++ r.1.2))
    (buf, [])

/-- First notification chunk of the spec's reassembler example:
`00 00 00 01 00 6A 00 05 "hello"`. -/
def chunkTitleHello : List Nat :=
  [0x00, 0x00, 0x00, 0x01, 0x00, 0x6A, 0x00, 0x05, 0x68, 0x65, 0x6C, 0x6C, 0x6F]

/-- Second notification chunk of the spec's reassembler example:
`00 00 00 02 00 6A 00 06 "artist"`. -/
def chunkArtistArtist : List Nat :=
  [0x00, 0x00, 0x00, 0x02, 0x00, 0x6A, 0x00, 0x06, 0x61, 0x72, 0x74, 0x69, 0x73, 0x74]

/-! ## Callback dispatch loops (ble.py lines 128-131, 141-152, 194-195, 207-213)

Every notification handler dispatches with the same loop shape
`for callback in registry.values(): callback(args)` and no per-handler
exception guard.  A handler is modelled by what it raises on a given
argument: `none` means it completes, `some e` means it raises `e`. -/

/-- Dispatch loop over the remaining handlers, carrying the position of
the next handler in insertion order.  Returns the positions of the
handlers that were invoked and the exception that escaped the loop, if
any: a raising handler is the last one invoked, the loop aborts there
and the exception propagates to the notifier. -/
def dispatchRunAux {α ε : Type} (a : α) : List (α → Option ε) → Nat → List Nat × Option ε
  | [], _ => ([], none)
  | h :: t, i =>
    match h a with
    | some e => ([i], some e)
    | none =>
      let r := dispatchRunAux a t (i + 1)
      (i :: r.1, r.2)

/-- The dispatch loop of the notification handlers, run over the
registry's handlers in insertion order (`OrderedDict.values()`), each
invoked with the identical argument `a`. -/
def dispatchRun {α ε : Type} (hs : List (α → Option ε)) (a : α) : List Nat × Option ε :=
  dispatchRunAux a hs 0

/-- Handler that raises on every argument (for the concrete dispatch
counterexample). -/
def raisingHandler : Nat → Option Unit := fun _ => some ()

/-- Handler that completes on every argument. -/
def quietHandler : Nat → Option Unit := fun _ => none

/-! ## Connection step (`MarshallStanmore2.__aenter__`, ble.py lines 86-123) -/

/-- The four notification channels, in the order `__aenter__` subscribes
to them: control/status, volume, media info, equalizer. -/
inductive NotifyChannel
  | status
  | volume
  | mediaInfo
  | equalizer
deriving DecidableEq, Repr

/-- Subscription order of `__aenter__` (ble.py lines 95-118). -/
def subscriptionOrder : List NotifyChannel :=
  [NotifyChannel.status, NotifyChannel.volume, NotifyChannel.mediaInfo,
   NotifyChannel.equalizer]

/-- Outcome of the connection step: which channels were successfully
subscribed, whether the client context was exited
(`client.__aexit__`, which disconnects and drops the subscriptions),
and whether `__aenter__` let an exception escape to its caller. -/
structure AenterOutcome where
  subscribed : List NotifyChannel
  clientExited : Bool
  raised : Bool
deriving DecidableEq, Repr

/-- The `try:` body of `__aenter__`: subscribe the channels in order;
the first failing `start_notify` aborts the rest and control moves to
the `except:` clause, which exits the client context.  Returns the
successfully subscribed channels and whether the except clause ran. -/
def subscribeLoop (fails : NotifyChannel → Bool) : List NotifyChannel → List NotifyChannel × Bool
  | [] => ([], false)
  | c :: rest =>
    if fails c then ([], true)
    else
      let r := subscribeLoop fails rest
      (c :: r.1, r.2)

/-- `MarshallStanmore2.__aenter__` (ble.py lines 86-123), parametrised
by which channel subscriptions fail.  The bare `except:` clause calls
`self.client.__aexit__(*sys.exc_info())` but does NOT re-raise, so
control always reaches `return self`: `raised` is `false` on every
path. -/
def aenter (fails : NotifyChannel → Bool) : AenterOutcome :=
  let r := subscribeLoop fails subscriptionOrder
  { subscribed := r.1, clientExited := r.2, raised := false }

/-! ## Callback registry IDs (`_register_callback` / `_cancel_callback`,
ble.py lines 337-351)

A registry is its `OrderedDict`'s key list in insertion order, plus the
history of IDs that were issued and later cancelled. -/

/-- One operation on a callback registry. -/
inductive RegOp
  | register
  | cancel (id : Nat)
deriving DecidableEq, Repr

/-- Registry state: the keys of the `OrderedDict` in insertion order and
the IDs cancelled so far (most recent first). -/
structure RegistryState where
  keys : List Nat
  cancelled : List Nat
deriving DecidableEq, Repr

/-- ID minting of `_register_callback`:
`next(reversed(callback_dict)) + 1` is the last-inserted key plus one;
the `StopIteration` branch starts at `1` when the dict is empty. -/
def freshId (keys : List Nat) : Nat :=
  match keys.getLast? with
  | some k => k + 1
  | none => 1

/-- `_register_callback` (ble.py lines 337-344): mint the ID, store the
handler under it, return the ID. -/
def registerOp (s : RegistryState) : RegistryState × Nat :=
  let id := freshId s.keys
  ({ s with keys := s.keys ++ [id] }, id)

/-- Apply one operation: `register` stores under the fresh ID;
`cancel id` deletes the entry, or raises `InvalidCallbackID` leaving the
registry unchanged when the ID is not present (ble.py lines 346-351). -/
def applyRegOp (s : RegistryState) : RegOp → RegistryState
  | RegOp.register => (registerOp s).1
  | RegOp.cancel id =>
    if id ∈ s.keys then
      { keys := s.keys.erase id, cancelled := id :: s.cancelled }
    else s

/-- Run a finite sequence of register/cancel operations on an initially
empty registry. -/
def runRegOps (ops : List RegOp) : RegistryState :=
  ops.foldl applyRegOp { keys := [], cancelled := [] }

/-! ## Equalizer profile, presets and the per-band MQTT handler
(typings.py lines 6-30, mqtt.py lines 218-264) -/

/-- `EqProfile` (typings.py lines 6-20): five integer band gains.  The
range check of `__post_init__` is kept as the separate predicate
`EqProfile.valid`, since Python's `setattr` used by the per-band handler
bypasses `__post_init__`. -/
structure EqProfile where
  hz160 : Int
  hz400 : Int
  hz1000 : Int
  hz2500 : Int
  hz6250 : Int
deriving DecidableEq, Repr

/-- The `__post_init__` range check of `EqProfile`: every band within
`[0, 10]`. -/
def EqProfile.valid (p : EqProfile) : Prop :=
  0 ≤ p.hz160 ∧ p.hz160 ≤ 10 ∧ 0 ≤ p.hz400 ∧ p.hz400 ≤ 10 ∧
  0 ≤ p.hz1000 ∧ p.hz1000 ≤ 10 ∧ 0 ≤ p.hz2500 ∧ p.hz2500 ≤ 10 ∧
  0 ≤ p.hz6250 ∧ p.hz6250 ≤ 10

/-- The five equalizer bands, named as the `hz…` fields of `EqProfile`
and addressed by the `set_eq_profile/<band>hz` topic suffixes. -/
inductive EqBand
  | hz160
  | hz400
  | hz1000
  | hz2500
  | hz6250
deriving DecidableEq, Repr

/-- Read one band of a profile. -/
def getBand (p : EqProfile) : EqBand → Int
  | EqBand.hz160 => p.hz160
  | EqBand.hz400 => p.hz400
  | EqBand.hz1000 => p.hz1000
  | EqBand.hz2500 => p.hz2500
  | EqBand.hz6250 => p.hz6250

/-- The `setattr(eq_profile, f"hz{hz_str}", eq_value)` of
`MqttControl._set_individual_eq` (mqtt.py line 232): overwrite exactly
the named band. -/
def setBand (p : EqProfile) : EqBand → Int → EqProfile
  | EqBand.hz160, v => { p with hz160 := v }
  | EqBand.hz400, v => { p with hz400 := v }
  | EqBand.hz1000, v => { p with hz1000 := v }
  | EqBand.hz2500, v => { p with hz2500 := v }
  | EqBand.hz6250, v => { p with hz6250 := v }

/-- `EqPreset` (typings.py lines 23-30): the closed enumeration of named
profiles. -/
inductive EqPreset
  | flat
  | rock
  | metal
  | pop
  | hiphop
  | electronic
  | jazz
deriving DecidableEq, Repr

/-- The profile value bound to each preset (typings.py lines 24-30). -/
def EqPreset.profile : EqPreset → EqProfile
  | EqPreset.flat => ⟨5, 5, 5, 5, 5⟩
  | EqPreset.rock => ⟨8, 6, 3, 5, 7⟩
  | EqPreset.metal => ⟨8, 3, 5, 7, 8⟩
  | EqPreset.pop => ⟨6, 7, 8, 4, 5⟩
  | EqPreset.hiphop => ⟨8, 7, 6, 5, 5⟩
  | EqPreset.electronic => ⟨7, 4, 4, 7, 6⟩
  | EqPreset.jazz => ⟨4, 7, 5, 4, 5⟩

/-- All presets, in declaration order. -/
def presetList : List EqPreset :=
  [EqPreset.flat, EqPreset.rock, EqPreset.metal, EqPreset.pop,
   EqPreset.hiphop, EqPreset.electronic, EqPreset.jazz]

/-- The `EqPreset(profile)` value lookup of `get_equaliser_preset`
(ble.py lines 517-521): the preset whose profile is value-equal to the
given one, or `none` when no preset matches (the `ValueError` branch) —
rendered as the "custom" label by `_preset_to_str` (mqtt.py
lines 27-31). -/
def matchPreset (p : EqProfile) : Option EqPreset :=
  presetList.find? (fun pr => pr.profile == p)

/-- One bus publication made along the equalizer paths of the command
router: the full profile string on `info/eq_profile`, one band value on
`info/eq_profile/<band>hz`, or the preset-or-"custom" label on
`info/eq_preset`. -/
inductive EqPub
  | fullProfile (p : EqProfile)
  | band (b : EqBand) (v : Int)
  | presetLabel (l : Option EqPreset)
deriving DecidableEq, Repr

/-- `MqttControl._publish_eq_profile` (mqtt.py lines 250-257): the full
profile followed by the five per-band values. -/
def publishEqProfile (p : EqProfile) : List EqPub :=
  [EqPub.fullProfile p,
   EqPub.band EqBand.hz160 p.hz160,
   EqPub.band EqBand.hz400 p.hz400,
   EqPub.band EqBand.hz1000 p.hz1000,
   EqPub.band EqBand.hz2500 p.hz2500,
   EqPub.band EqBand.hz6250 p.hz6250]

/-- `MqttControl._set_individual_eq` (mqtt.py lines 218-236), with the
device's current equalizer profile as the collaborator state: reads the
profile, parses the payload (`none` models the `int()` `ValueError`),
range-checks it, overwrites the named band, writes the result back, and
after the settle delay republishes via `get_eq_profile` (which re-reads
the written profile) and `get_eq_preset`.  Returns the device profile
after the handler and the publications made. -/
def setIndividualEq (device : EqProfile) (b : EqBand) (payload : Option Int) :
    EqProfile × List EqPub :=
  match payload with
  | none => (device, [])
  | some v =>
    if 0 ≤ v ∧ v ≤ 10 then
      let p2 := setBand device b v
      (p2, publishEqProfile p2 ++ [EqPub.presetLabel (matchPreset p2)])
    else (device, [])

/-! ## LED brightness codec (ble.py lines 309-335) -/

/-- Validation errors of the device facade (exceptions.py), as far as
the claims need them. -/
inductive BleError
  | invalidVolume
  | invalidLedBrightness
  | invalidDeviceName
  | invalidCallbackID
deriving DecidableEq, Repr

/-- `MarshallStanmore2.set_led_brightness` (ble.py lines 309-326):
raises `InvalidLedBrightness` unless the logical value is in `[0, 35]`
— before any transport write — and otherwise writes the single byte
`brightness + 35`.  The returned byte is the one written. -/
def setLedBrightness (brightness : Int) : Except BleError Nat :=
  if 0 ≤ brightness ∧ brightness ≤ 35 then
    Except.ok (brightness + 35).toNat
  else
    Except.error BleError.invalidLedBrightness

/-- The decode step of `MarshallStanmore2.get_led_brightness` (ble.py
lines 328-335): `data[0] - 35` on the raw byte read from the device,
with no validation. -/
def getLedBrightnessDecode (raw : Nat) : Int :=
  (raw : Int) - 35

/-! ## Command router construction (`MqttControl._init_speaker`,
mqtt.py lines 84-90) -/

/-- One bus publication of the volume path: topic suffix (under the
configured prefix) and payload. -/
structure MqttMsg where
  topic : String
  payload : String
deriving DecidableEq, Repr

/-- The event-handler methods of `MqttControl` registered with the
speaker facade at construction. -/
inductive HandlerTag
  | bleDisconnect
  | bleEqualizer
  | bleVolume
  | bleStatus
  | bleMediaInfo
deriving DecidableEq, Repr

/-- The five callback registries of the facade, as handler lists in
insertion order (one per event kind, ble.py lines 59-63). -/
structure SpeakerRegistries where
  disconnectCbs : List HandlerTag
  equalizerCbs : List HandlerTag
  volumeCbs : List HandlerTag
  statusCbs : List HandlerTag
  mediaInfoCbs : List HandlerTag
deriving DecidableEq, Repr

/-- Register a handler: appended in insertion order
(`_register_callback`). -/
def registerCb (reg : List HandlerTag) (h : HandlerTag) : List HandlerTag :=
  reg ++ [h]

/-- The registries of a freshly constructed facade: all empty
(`MarshallStanmore2.__init__`, ble.py lines 74-78). -/
def emptyRegistries : SpeakerRegistries :=
  { disconnectCbs := [], equalizerCbs := [], volumeCbs := [],
    statusCbs := [], mediaInfoCbs := [] }

/-- `MqttControl._init_speaker` (mqtt.py lines 84-90), one record update
per source line: disconnect, equalizer, volume, status, volume again,
media info. -/
def initSpeaker (s0 : SpeakerRegistries) : SpeakerRegistries :=
  let s1 := { s0 with disconnectCbs := registerCb s0.disconnectCbs HandlerTag.bleDisconnect }
  let s2 := { s1 with equalizerCbs := registerCb s1.equalizerCbs HandlerTag.bleEqualizer }
  let s3 := { s2 with volumeCbs := registerCb s2.volumeCbs HandlerTag.bleVolume }
  let s4 := { s3 with statusCbs := registerCb s3.statusCbs HandlerTag.bleStatus }
  let s5 := { s4 with volumeCbs := registerCb s4.volumeCbs HandlerTag.bleVolume }
  { s5 with mediaInfoCbs := registerCb s5.mediaInfoCbs HandlerTag.bleMediaInfo }

/-- Publications made by one volume-registry handler for a volume event:
`MqttControl._ble_volume_callback` (mqtt.py lines 107-108) publishes the
volume as text to `info/volume`; no other handler kind is ever stored in
the volume registry. -/
def volumeHandlerPubs : HandlerTag → Nat → List MqttMsg
  | HandlerTag.bleVolume, v => [{ topic := "info/volume", payload := toString v }]
  | _, _ => []

/-- A volume notification dispatched through the volume registry
(`_on_volume_change`, ble.py lines 128-131): every registered handler is
invoked with the same volume byte; the publications accumulate in
insertion order. -/
def dispatchVolumeEvent (s : SpeakerRegistries) (v : Nat) : List MqttMsg :=
  (s.volumeCbs.map fun h => volumeHandlerPubs h v).flatten

/-! ## Theorems for claims about the reassembler -/

/-- C1: in the source, `bytes.index` raises `ValueError` when a field
marker is absent (the `== -1` branches that would yield `None` are
unreachable), so on the spec's own example buffer — a title field
"hello", an artist field "artist", no album marker, and the terminating
sentinel — `_handle_media_info` raises instead of producing
`MediaInfo(title="hello", artist="artist", album=None)`, and feeding the
three chunks dispatches no `MediaInfo` at all (the buffer is still
reset).  This refutes the claim that an absent marker yields `None` and
that the fields are extracted independently. -/
theorem mediaInfo_absent_album_raises :
    handleExtract (chunkTitleHello ++ chunkArtistArtist ++ endingBytes) =
      Except.error MediaErr.valueError ∧
    extractField (chunkTitleHello ++ chunkArtistArtist ++ endingBytes) titleMarker =
      Except.ok (some [0x68, 0x65, 0x6C, 0x6C, 0x6F]) ∧
    extractField (chunkTitleHello ++ chunkArtistArtist ++ endingBytes) artistMarker =
      Except.ok (some [0x61, 0x72, 0x74, 0x69, 0x73, 0x74]) ∧
    feedChunks [] [chunkTitleHello, chunkArtistArtist, endingBytes] = ([], []) := by
  refine ⟨by rfl, by rfl, by rfl, by rfl⟩

/-- C5 counterexample: with prior buffer contents `00 00 00 FF` and the
incoming chunk `00 00 00 00`, the buffer's last 8 bytes equal the
sentinel, yet `_on_media_info` does not trigger a decode (the test is on
the chunk's last 8 bytes, and a 4-byte chunk cannot match the 8-byte
sentinel): the buffer keeps growing and no handling attempt runs. -/
theorem sentinel_chunk_boundary_cex :
    lastSlice 8 ([0x00, 0x00, 0x00, 0xFF] ++ [0x00, 0x00, 0x00, 0x00]) = endingBytes ∧
    feedChunk [0x00, 0x00, 0x00, 0xFF] [0x00, 0x00, 0x00, 0x00] =
      (([0x00, 0x00, 0x00, 0xFF, 0x00, 0x00, 0x00, 0x00], []), false) := by
  refine ⟨by decide, by decide⟩

/-- C5 (amended): on each incoming chunk the reassembler appends the
chunk to the buffer, and triggers a complete-message decode iff the
CHUNK is at least 8 bytes long and its own last 8 bytes equal the
sentinel `00 00 00 FF 00 00 00 00`; when triggered the decode runs on
the appended buffer, otherwise the buffer simply grows.  A sentinel
whose bytes end the buffer but span a chunk boundary does NOT trigger
the decode. -/
theorem feedChunk_trigger_iff_chunk_tail_sentinel (buf chunk : List Nat) :
    ((feedChunk buf chunk).2 = true ↔
      8 ≤ chunk.length ∧ lastSlice 8 chunk = endingBytes) ∧
    ((feedChunk buf chunk).2 = true →
      (feedChunk buf chunk).1 = handleMediaInfoRun (buf ++ chunk)) ∧
    ((feedChunk buf chunk).2 = false → (feedChunk buf chunk).1 = (buf ++ chunk, [])) := by
  by_cases h : lastSlice 8 chunk = endingBytes
  · have hlen : 8 ≤ chunk.length := by
      have hl := congrArg List.length h
      simp [lastSlice, endingBytes] at hl
      omega
    simp [feedChunk, h, hlen]
  · simp [feedChunk, h]

/-- C5 witness: a chunk that is exactly the 8-byte sentinel triggers the
decode. -/
theorem feedChunk_trigger_witness :
    (feedChunk [] endingBytes).2 = true :=
  (feedChunk_trigger_iff_chunk_tail_sentinel [] endingBytes).1.mpr
    ⟨by decide, by decide⟩

/-- C6: after every media-info handling attempt triggered by sentinel
detection, the reassembly buffer is reset to empty — the `finally:`
block runs whether field extraction returned a `MediaInfo` or raised —
so the next message starts accumulating into a fresh empty buffer. -/
theorem buffer_reset_after_triggered_handling (buf chunk : List Nat)
    (h : (feedChunk buf chunk).2 = true) :
    (feedChunk buf chunk).1.1 = [] := by
  by_cases hs : lastSlice 8 chunk = endingBytes
  · simp only [feedChunk, hs, if_pos]
    cases he : handleExtract (buf ++ chunk) <;> simp [handleMediaInfoRun, he]
  · simp [feedChunk, hs] at h

/-- C6 witness: feeding the bare sentinel chunk triggers a handling
attempt whose extraction raises (no title marker present), and the
buffer is nevertheless reset to empty. -/
theorem buffer_reset_witness :
    (feedChunk [] endingBytes).2 = true ∧ (feedChunk [] endingBytes).1.1 = [] :=
  ⟨by decide, buffer_reset_after_triggered_handling [] endingBytes (by decide)⟩

/-! ## Theorems for claims about dispatch, connection and registry IDs -/

/-- Helper: the trace of invoked handler positions produced by the
dispatch loop, starting at position `i`, is the contiguous range from
`i` up to and including the first raising handler (or all remaining
handlers when none raises). -/
theorem dispatchRunAux_trace {α ε : Type} (a : α) :
    ∀ (hs : List (α → Option ε)) (i : Nat),
      (dispatchRunAux a hs i).1 =
        List.range' i (min ((hs.findIdx fun h => (h a).isSome) + 1) hs.length) := by
  intro hs
  induction hs with
  | nil => intro i; simp [dispatchRunAux]
  | cons h t ih =>
    intro i
    cases hh : h a with
    | some e =>
      have hp : ((h :: t).findIdx fun g => (g a).isSome) = 0 := by
        simp [List.findIdx_cons, hh]
      simp [dispatchRunAux, hh, hp, List.range']
    | none =>
      have hp : ((h :: t).findIdx fun g => (g a).isSome) =
          (t.findIdx fun g => (g a).isSome) + 1 := by
        simp [List.findIdx_cons, hh]
      have hmin : min ((t.findIdx fun g => (g a).isSome) + 1 + 1) (t.length + 1) =
          min ((t.findIdx fun g => (g a).isSome) + 1) t.length + 1 :=
        Nat.succ_min_succ _ _
      simp only [dispatchRunAux, hh, hp, List.length_cons, hmin, List.range']
      simp [ih (i + 1)]

/-- C2 counterexample: a registry holding a raising handler followed by
a quiet handler, dispatched once: only position 0 is invoked, so not
every registered handler runs — the trace differs from
`List.range 2 = [0, 1]`, refuting per-handler isolation. -/
theorem dispatch_not_isolated_cex :
    (dispatchRun [raisingHandler, quietHandler] 0).1 = [0] ∧
    [0] ≠ List.range 2 := by
  refine ⟨rfl, by decide⟩

/-- C2 (amended): dispatch invokes the registered handlers in insertion
order with identical arguments, but the invocations are not isolated:
the handlers invoked are exactly those up to and including the first one
that raises (all of them when none raises), and handlers after a raising
one are not invoked for that event. -/
theorem dispatch_stops_at_first_raising_handler {α ε : Type}
    (hs : List (α → Option ε)) (a : α) :
    (dispatchRun hs a).1 =
      List.range (min ((hs.findIdx fun h => (h a).isSome) + 1) hs.length) := by
  rw [dispatchRun, dispatchRunAux_trace a hs 0, List.range_eq_range']

/-- C3 counterexample: when the very first (status) subscription fails,
`__aenter__` exits the client context but swallows the exception and
returns normally — the connection attempt does not fail as a whole. -/
theorem aenter_swallows_subscription_failure_cex :
    (fun c => c == NotifyChannel.status) NotifyChannel.status = true ∧
    (aenter fun c => c == NotifyChannel.status).clientExited = true ∧
    (aenter fun c => c == NotifyChannel.status).raised = false := by
  refine ⟨rfl, rfl, rfl⟩

/-- C3 (amended): if any of the four notification-channel subscriptions
fails, the client context is exited — tearing down the connection and
with it the subscriptions already made for the attempt — but the
exception is swallowed by the bare `except:` clause, so the connection
step returns normally instead of failing as a whole. -/
theorem aenter_teardown_but_returns_normally (fails : NotifyChannel → Bool)
    (h : subscriptionOrder.any fails = true) :
    (aenter fails).clientExited = true ∧ (aenter fails).raised = false := by
  refine ⟨?_, rfl⟩
  cases h1 : fails NotifyChannel.status <;>
    cases h2 : fails NotifyChannel.volume <;>
      cases h3 : fails NotifyChannel.mediaInfo <;>
        cases h4 : fails NotifyChannel.equalizer <;>
          simp_all [aenter, subscribeLoop, subscriptionOrder]

/-- C3 witness: a failure on the volume channel exits the client context
without raising. -/
theorem aenter_teardown_witness :
    (aenter fun c => c == NotifyChannel.volume).clientExited = true ∧
    (aenter fun c => c == NotifyChannel.volume).raised = false :=
  aenter_teardown_but_returns_normally (fun c => c == NotifyChannel.volume)
    (by decide)

/-- Helper: with a strictly increasing key list, the freshly minted ID
(last key + 1) is strictly greater than every key. -/
theorem freshId_gt_of_pairwise :
    ∀ (l : List Nat), l.Pairwise (· < ·) → ∀ k ∈ l, k < freshId l := by
  intro l
  induction l with
  | nil => intro _ k hk; cases hk
  | cons a t ih =>
    intro hp k hk
    cases t with
    | nil =>
      have hk2 : k = a := by simpa using hk
      subst hk2
      simp [freshId, List.getLast?_singleton]
    | cons b t2 =>
      have hfr : freshId (a :: b :: t2) = freshId (b :: t2) := by
        simp [freshId, List.getLast?_cons_cons]
      rw [hfr]
      have hp2 := List.pairwise_cons.mp hp
      rcases List.mem_cons.mp hk with h1 | h2
      · subst h1
        have hab : k < b := hp2.1 b (List.mem_cons_self b t2)
        have hb : b < freshId (b :: t2) :=
          ih hp2.2 b (List.mem_cons_self b t2)
        omega
      · exact ih hp2.2 k h2

/-- Helper: every registry operation preserves strict increase of the
key list — register appends an ID larger than all keys, cancel removes
one key. -/
theorem applyRegOp_pairwise (s : RegistryState)
    (hp : s.keys.Pairwise (· < ·)) (op : RegOp) :
    ((applyRegOp s op).keys).Pairwise (· < ·) := by
  cases op with
  | register =>
    simp only [applyRegOp, registerOp]
    rw [List.pairwise_append]
    refine ⟨hp, List.pairwise_singleton _ _, ?_⟩
    intro x hx y hy
    have hy2 : y = freshId s.keys := by simpa using hy
    subst hy2
    exact freshId_gt_of_pairwise s.keys hp x hx
  | cancel id =>
    simp only [applyRegOp]
    split
    · exact hp.sublist (List.erase_sublist id s.keys)
    · exact hp

/-- Helper: the key list of a registry reached by any operation sequence
from the empty registry is strictly increasing. -/
theorem runRegOps_pairwise (ops : List RegOp) :
    ((runRegOps ops).keys).Pairwise (· < ·) := by
  suffices h : ∀ s : RegistryState, s.keys.Pairwise (· < ·) →
      ((ops.foldl applyRegOp s).keys).Pairwise (· < ·) from
    h { keys := [], cancelled := [] } List.Pairwise.nil
  induction ops with
  | nil => intro s hs; exact hs
  | cons op rest ih => intro s hs; exact ih _ (applyRegOp_pairwise s hs op)

/-- C4 counterexample: after register (ID 1), register (ID 2),
cancel 2, the very next register call mints
`next(reversed(dict)) + 1 = 1 + 1 = 2` — the previously issued and
cancelled ID 2 is reused. -/
theorem callback_id_reuse_cex :
    (registerOp (runRegOps [RegOp.register, RegOp.register, RegOp.cancel 2])).2 = 2 ∧
    (registerOp (runRegOps [RegOp.register, RegOp.register, RegOp.cancel 2])).2 ∈
      (runRegOps [RegOp.register, RegOp.register, RegOp.cancel 2]).cancelled := by
  refine ⟨by decide, by decide⟩

/-- C4 (amended): after any finite sequence of register and cancel
operations, the ID returned by the next register call is strictly
greater than every currently registered ID — so it never collides with
a live registration — but it can equal a previously issued ID whose
cancellation left it above the current maximum, so cancelled IDs may be
reused. -/
theorem register_id_exceeds_live_ids (ops : List RegOp) :
    ∀ k ∈ (runRegOps ops).keys, k < (registerOp (runRegOps ops)).2 :=
  fun k hk => freshId_gt_of_pairwise _ (runRegOps_pairwise ops) k hk

/-- C4 witness: after two registrations the live IDs are 1 and 2, and
the next register call would mint 3, larger than the live ID 1. -/
theorem register_id_exceeds_live_ids_witness :
    (1 : Nat) ∈ (runRegOps [RegOp.register, RegOp.register]).keys ∧
    1 < (registerOp (runRegOps [RegOp.register, RegOp.register])).2 :=
  ⟨by decide, register_id_exceeds_live_ids [RegOp.register, RegOp.register] 1 (by decide)⟩

/-! ## Theorems for claims about the equalizer handler, the LED codec
and the router construction -/

/-- C7: for every current device profile and every in-range per-band
payload, the per-band equalizer set handler writes back a profile in
which only the named band carries the new value — the other four bands
are unchanged from the profile read before the write — and afterwards
republishes both the full profile and the derived preset-or-"custom"
label of the written profile. -/
theorem setIndividualEq_updates_only_named_band
    (device : EqProfile) (b : EqBand) (v : Int) (h0 : 0 ≤ v) (h1 : v ≤ 10) :
    (setIndividualEq device b (some v)).1 = setBand device b v ∧
    getBand (setBand device b v) b = v ∧
    (∀ b2, b2 ≠ b → getBand (setBand device b v) b2 = getBand device b2) ∧
    EqPub.fullProfile (setBand device b v) ∈ (setIndividualEq device b (some v)).2 ∧
    EqPub.presetLabel (matchPreset (setBand device b v)) ∈
      (setIndividualEq device b (some v)).2 := by
  have hrange : 0 ≤ v ∧ v ≤ 10 := ⟨h0, h1⟩
  refine ⟨?_, ?_, ?_, ?_, ?_⟩
  · simp [setIndividualEq, hrange]
  · cases b <;> simp [setBand, getBand]
  · intro b2 hne
    cases b <;> cases b2 <;> simp_all [setBand, getBand]
  · simp [setIndividualEq, hrange, publishEqProfile]
  · simp [setIndividualEq, hrange, publishEqProfile]

/-- C7 witness: the spec's example — payload 7 on the 160 Hz band, with
the device currently on the flat profile — writes `⟨7, 5, 5, 5, 5⟩`,
changes only the 160 Hz band, and republishes the full profile and the
(here "custom") label. -/
theorem setIndividualEq_witness :
    (setIndividualEq ⟨5, 5, 5, 5, 5⟩ EqBand.hz160 (some 7)).1 =
      setBand ⟨5, 5, 5, 5, 5⟩ EqBand.hz160 7 ∧
    getBand (setBand ⟨5, 5, 5, 5, 5⟩ EqBand.hz160 7) EqBand.hz160 = 7 ∧
    getBand (setBand ⟨5, 5, 5, 5, 5⟩ EqBand.hz160 7) EqBand.hz400 = 5 ∧
    EqPub.presetLabel (matchPreset (setBand ⟨5, 5, 5, 5, 5⟩ EqBand.hz160 7)) ∈
      (setIndividualEq ⟨5, 5, 5, 5, 5⟩ EqBand.hz160 (some 7)).2 := by
  have h := setIndividualEq_updates_only_named_band ⟨5, 5, 5, 5, 5⟩
    EqBand.hz160 7 (by decide) (by decide)
  exact ⟨h.1, h.2.1, h.2.2.1 EqBand.hz400 (by decide), h.2.2.2.2⟩

/-- C8: for every integer in `[0, 35]`, encoding the LED brightness
(value + 35) and decoding the resulting byte (byte − 35) returns the
value; for every integer outside `[0, 35]`, `set_led_brightness` fails
with `InvalidLedBrightness` before any transport write. -/
theorem led_brightness_roundtrip_and_validation (b : Int) :
    (0 ≤ b ∧ b ≤ 35 →
      setLedBrightness b = Except.ok (b + 35).toNat ∧
      getLedBrightnessDecode (b + 35).toNat = b) ∧
    (¬(0 ≤ b ∧ b ≤ 35) →
      setLedBrightness b = Except.error BleError.invalidLedBrightness) := by
  constructor
  · intro h
    refine ⟨by simp [setLedBrightness, h], ?_⟩
    have h35 : (0 : Int) ≤ b + 35 := by omega
    simp [getLedBrightnessDecode, Int.toNat_of_nonneg h35]
  · intro h
    simp [setLedBrightness, h]

/-- C8 witness: brightness 7 is written as byte 42 and decodes back to
7; brightness 40 is rejected with `InvalidLedBrightness`. -/
theorem led_brightness_witness :
    (setLedBrightness 7 = Except.ok 42 ∧ getLedBrightnessDecode 42 = 7) ∧
    setLedBrightness 40 = Except.error BleError.invalidLedBrightness :=
  ⟨(led_brightness_roundtrip_and_validation 7).1 (by decide),
   (led_brightness_roundtrip_and_validation 40).2 (by decide)⟩

/-- C9: `_init_speaker` registers the volume handler twice in the
volume callback registry (mqtt.py lines 87 and 89) and every other
event handler exactly once, so each volume notification dispatched
through the registry publishes the `info/volume` state twice. -/
theorem initSpeaker_registers_volume_twice :
    (initSpeaker emptyRegistries).volumeCbs =
      [HandlerTag.bleVolume, HandlerTag.bleVolume] ∧
    (initSpeaker emptyRegistries).disconnectCbs.length = 1 ∧
    (initSpeaker emptyRegistries).equalizerCbs.length = 1 ∧
    (initSpeaker emptyRegistries).statusCbs.length = 1 ∧
    (initSpeaker emptyRegistries).mediaInfoCbs.length = 1 ∧
    ∀ v : Nat, dispatchVolumeEvent (initSpeaker emptyRegistries) v =
      [{ topic := "info/volume", payload := toString v },
       { topic := "info/volume", payload := toString v }] := by
  refine ⟨rfl, rfl, rfl, rfl, rfl, fun v => rfl⟩

/-- C10: the LED brightness get operation performs no validation on the
byte read from the device — it returns `byte − 35` for every raw byte —
so every raw byte below 35 yields a negative result, outside the
documented logical range `[0, 35]`. -/
theorem getLedBrightness_no_validation (raw : Nat) :
    getLedBrightnessDecode raw = (raw : Int) - 35 ∧
    (raw < 35 → getLedBrightnessDecode raw < 0) := by
  refine ⟨rfl, fun h => ?_⟩
  simp only [getLedBrightnessDecode]
  omega

/-- C10 witness: the raw byte 0 decodes to −35, a negative value. -/
theorem getLedBrightness_no_validation_witness :
    (0 : Nat) < 35 ∧ getLedBrightnessDecode 0 < 0 :=
  ⟨by decide, (getLedBrightness_no_validation 0).2 (by decide)⟩
